import Mathlib

/-!
Shallow embedding of the LokiJS repository (Topl/LokiJS).

Part 1 embeds `src/src/utils/address-utils.js`: the network registry, the
address extractor `extractAddressesFromObj`, and the validator
`validateAddressesByNetwork`.

Part 2 models the `KeyManager` module, whose implementation file
(`src/modules/KeyManager.js`) is not among the provided sources; only its
test suite (`src/test/it/keymanager_tests.js`) is. Those definitions are
modelled from the spec and are marked as such.

External npm libraries (`base-58` decoding and the `blake2` blake2b-256
hash) are not code of this repository; they are treated as opaque function
parameters (`decode : String → List Nat`, `hash : List Nat → List Nat`)
over byte lists, so every theorem quantifies over them.

JavaScript runtime behaviour is made explicit: functions that can throw
return `Except String _`, truthiness of JS values is spelled out
(`jsTruthy...`), and a value that can be either a string or an array
(the `result.addresses` field) is a sum type `AddrsVal`.
-/

namespace LokiJS

/-! ## Network registry (address-utils.js lines 18-46, 243-260) -/

/-- `validNetworks` (address-utils.js line 18). -/
def validNetworks : List String := ["local", "private", "toplnet", "valhalla", "hel"]

/-- One entry of `networksDefaults` (address-utils.js lines 20-46). -/
structure NetworkDefault where
  hex : String
  decimal : Nat
  url : String
deriving DecidableEq, Repr

/-- `networksDefaults` (address-utils.js lines 20-46), as a lookup returning
`none` for keys not in the table (JS would yield `undefined`). -/
def networksDefaults (network : String) : Option NetworkDefault :=
  if network = "local" then some ⟨"0x30", 48, "http://localhost:9085/"⟩
  else if network = "private" then some ⟨"0x40", 64, "http://localhost:9085/"⟩
  else if network = "toplnet" then some ⟨"0x01", 1, "https:\\torus.topl.services"⟩
  else if network = "valhalla" then some ⟨"0x10", 16, "https:\\valhalla.torus.topl.services"⟩
  else if network = "hel" then some ⟨"0x20", 32, "https:\\hel.torus.topl.services"⟩
  else none

/-- `isValidNetwork(networkPrefix)` (address-utils.js lines 243-245):
`networkPrefix && validNetworks.includes(networkPrefix)` coerced to a
boolean; an empty string is falsy in JS. -/
def isValidNetwork (network : String) : Bool :=
  (network != "") && validNetworks.contains network

/-- `getDecimalByNetwork(networkPrefix)` (address-utils.js lines 255-257).
On a key missing from the table JS would throw (`undefined.decimal`); the
validator only calls it after `isValidNetwork` has succeeded, so the
default value 0 used here is unreachable from `validateAddressesByNetwork`. -/
def getDecimalByNetwork (network : String) : Nat :=
  ((networksDefaults network).map NetworkDefault.decimal).getD 0

/-! ## The `addresses` argument and `extractAddressesFromObj` -/

/-- The structured transaction object accepted by `extractAddressesFromObj`
(address-utils.js lines 151-206).  Optional string fields are `Option`;
list-valued fields model a missing field as `[]` (in JS a missing field is
`undefined`, which fails the `obj[k] && obj[k].length > 0` guard exactly as
the empty array does, and the subsequent `forEach` over an empty array also
pushes nothing, so the two are observationally identical here).
`recipients` holds `[address, amount]` pairs; only `pair[0]` is pushed. -/
structure TxObj where
  changeAddress : Option String
  consolidationAdddress : Option String
  recipients : List (String × Nat)
  sender : List String
  addresses : List String
deriving DecidableEq, Repr

/-- The shapes the `addresses` argument of `validateAddressesByNetwork`
ranges over in the source and its callers: `undefined`, a bare string, a
flat array of strings, or a structured object. -/
inductive JsAddresses where
  | undef
  | str (s : String)
  | arr (l : List String)
  | obj (o : TxObj)
deriving DecidableEq, Repr

/-- JS truthiness of the `addresses` argument, for the `if(!addresses)`
guard (address-utils.js line 100): `undefined` and `""` are falsy; arrays
and objects are always truthy. -/
def jsTruthyAddrs : JsAddresses → Bool
  | .undef => false
  | .str s => s != ""
  | .arr _ => true
  | .obj _ => true

/-- The value stored in `result.addresses`: normally an array, but
`extractAddressesFromObj` returns a bare string unchanged when handed one
(address-utils.js lines 169-171), so the field can also hold a string. -/
inductive AddrsVal where
  | arr (l : List String)
  | str (s : String)
deriving DecidableEq, Repr

/-- JS truthiness of `result.addresses` for the `!result.addresses` guard
(address-utils.js line 112): an array is always truthy, a string is truthy
iff non-empty. -/
def AddrsVal.truthy : AddrsVal → Bool
  | .arr _ => true
  | .str s => s != ""

/-- JS `.length` of `result.addresses` (address-utils.js line 112):
array length, or string length for a bare string. -/
def AddrsVal.len : AddrsVal → Nat
  | .arr l => l.length
  | .str s => s.length

/-- The `if(obj[k]) addresses.push(obj[k])` pattern for the optional string
fields (address-utils.js lines 181-186): pushes the value only when it is
truthy (present and non-empty). -/
def pushIfTruthy : Option String → List String
  | some s => if s != "" then [s] else []
  | none => []

/-- Body of `extractAddressesFromObj` for a structured object
(address-utils.js lines 178-204): pushes, in encounter order,
`changeAddress`, `consolidationAdddress`, the first component of each
`recipients` entry, each `sender` entry, and each `addresses` entry,
without deduplication. -/
def extractFromTxObj (o : TxObj) : List String :=
  pushIfTruthy o.changeAddress ++
  pushIfTruthy o.consolidationAdddress ++
  (if o.recipients.length > 0 then o.recipients.map Prod.fst else []) ++
  (if o.sender.length > 0 then o.sender else []) ++
  (if o.addresses.length > 0 then o.addresses else [])

/-- `extractAddressesFromObj(obj)` (address-utils.js lines 151-206): a bare
string is returned unchanged (lines 169-171); an object is flattened by
`extractFromTxObj`.  The `arr` and `undef` cases are unreachable from
`validateAddressesByNetwork` (arrays are dispatched before the call, falsy
arguments are rejected earlier); on an actual JS array none of the five
fields exists so the result would be `[]`, which is what we return. -/
def extractAddressesFromObj : JsAddresses → AddrsVal
  | .str s => .str s
  | .obj o => .arr (extractFromTxObj o)
  | .arr _ => .arr []
  | .undef => .arr []

/-! ## `validateAddressesByNetwork` -/

/-- The result object built by `validateAddressesByNetwork`
(address-utils.js lines 86-92).  The JS field `networkPrefix` is named
`network` here. -/
structure ValidationResult where
  success : Bool
  errorMsg : String
  network : String
  addresses : AddrsVal
  invalidAddresses : List String
deriving DecidableEq, Repr

/-- The per-address validation of the `forEach` body (address-utils.js
lines 118-139), parameterised by the base-58 `decode` and the blake2b-256
`hash` of the external libraries: an address is invalid when the decoded
buffer is not 38 bytes long, or byte 0 differs from the network decimal,
or the 4 trailing bytes differ from the first 4 bytes of the hash of
bytes 0-33 (`slice(0,34)`). -/
def isInvalidAddress (decode : String → List Nat) (hash : List Nat → List Nat)
    (networkDecimal : Nat) (address : String) : Bool :=
  let decodedAddress := decode address
  if decodedAddress.length != 38 || decodedAddress.headD 0 != networkDecimal then
    true
  else
    let checksumBuffer := decodedAddress.drop 34
    let msgBuffer := decodedAddress.take 34
    let hashChecksumBuffer := (hash msgBuffer).take 4
    !(checksumBuffer == hashChecksumBuffer)

/-- `validateAddressesByNetwork(networkPrefix, addresses)` (address-utils.js
lines 84-149), parameterised by the external `decode` and `hash` functions.
Return paths, in source order: unknown network; falsy `addresses`; empty
normalized list; otherwise the per-address loop.  When `result.addresses`
is a bare string the JS `forEach` call throws a `TypeError`, modelled as
`Except.error`. -/
def validateAddressesByNetwork (decode : String → List Nat) (hash : List Nat → List Nat)
    (network : String) (addresses : JsAddresses) : Except String ValidationResult :=
  let result0 : ValidationResult :=
    { success := false, errorMsg := "", network := network,
      addresses := .arr [], invalidAddresses := [] }
  if !isValidNetwork network then
    .ok { result0 with errorMsg := "Invalid network provided" }
  else if !jsTruthyAddrs addresses then
    .ok { result0 with errorMsg := "No addresses provided" }
  else
    let networkDecimal := getDecimalByNetwork network
    let resAddresses : AddrsVal :=
      match addresses with
      | .arr l => .arr l
      | other => extractAddressesFromObj other
    if ! AddrsVal.truthy resAddresses || AddrsVal.len resAddresses < 1 then
      .ok { result0 with addresses := resAddresses, errorMsg := "No addresses found" }
    else
      match resAddresses with
      | .str _ => .error "TypeError: result.addresses.forEach is not a function"
      | .arr l =>
        let invalid := l.filter (isInvalidAddress decode hash networkDecimal)
        if invalid.length > 0 then
          .ok { result0 with
                addresses := .arr l
                invalidAddresses := invalid
                errorMsg := "Invalid addresses for network: " ++ network }
        else
          .ok { result0 with
                addresses := .arr l
                invalidAddresses := invalid
                success := true }

/-! ## KeyManager (modelled from the spec) -/

/-- Modelled from the spec: the shape of the single field a password can be
extracted from in a `KeyManager` configuration object (`src/modules/KeyManager.js`
is not among the provided sources; only its tests are).  The tests exercise
`{password:123}`, `{password:[]}`, `{password:undefined}` and objects with
no `password` key at all. -/
inductive PwField where
  | strF (s : String)
  | numF
  | arrF
  | undefF
deriving DecidableEq, Repr

/-- Modelled from the spec: the shapes a caller can pass to the `KeyManager`
constructor — `undefined`, a number, an array, a plain object with an
optional `password` field, or a string. -/
inductive ConstructArg where
  | undef
  | num
  | arrV
  | obj (password : Option PwField)
  | str (s : String)
deriving DecidableEq, Repr

/-- Modelled from the spec: an asymmetric signing key pair derived from the
password by the external KDF + curve25519 pipeline; its contents are opaque
bytes. -/
structure KeyPair where
  privateKey : List Nat
  publicKey : List Nat
deriving DecidableEq, Repr

/-- Modelled from the spec (§7): the error kinds `InvalidPassword`,
`AlreadyUnlocked`, `LockedError`, `InvalidAccess`. -/
inductive KMError where
  | invalidPassword
  | alreadyUnlocked
  | lockedError
  | invalidAccess
deriving DecidableEq, Repr

/-- Modelled from the spec (§4.1): the password accepted by construction —
a non-empty string, or a configuration object whose `password` field is a
non-empty string; every other shape yields `none`. -/
def extractPassword : ConstructArg → Option String
  | .str s => if s = "" then none else some s
  | .obj (some (.strF s)) => if s = "" then none else some s
  | _ => none

/-- Modelled from the spec (§3, §4.1): the `KeyManager` state — the
construction password, the derived key pair, and the lock flag
(`isLocked = false` means `Unlocked`). -/
structure KeyManager where
  password : String
  keyPair : KeyPair
  isLocked : Bool
deriving DecidableEq, Repr

/-- Modelled from the spec (§4.1): construction validates the password
shape first and fails with `InvalidPassword` before any cryptographic
work; only on success is the key pair derived (via the opaque `derive`
parameter) and the state initialised to `Unlocked`. -/
def KeyManager.create (derive : String → KeyPair) (arg : ConstructArg) :
    Except KMError KeyManager :=
  match extractPassword arg with
  | none => .error .invalidPassword
  | some pw => .ok { password := pw, keyPair := derive pw, isLocked := false }

/-- Modelled from the spec (§4.1): `lockKey()` transitions to `Locked`
unconditionally and is idempotent. -/
def KeyManager.lockKey (km : KeyManager) : KeyManager :=
  { km with isLocked := true }

/-- Modelled from the spec (§4.1): `unlockKey(password)` — while already
`Unlocked` it fails with `AlreadyUnlocked`; while `Locked` it compares the
supplied password (possibly absent, as in the test calling `unlockKey()`)
with the construction password, transitioning to `Unlocked` on a match and
failing with `InvalidPassword` on a mismatch.  An error result carries no
state, so the caller's `KeyManager` is unchanged on every failure path. -/
def KeyManager.unlockKey (km : KeyManager) (pw : Option String) :
    Except KMError KeyManager :=
  if km.isLocked = false then .error .alreadyUnlocked
  else if pw = some km.password then .ok { km with isLocked := false }
  else .error .invalidPassword

/-- Modelled from the spec (§4.1): the message argument of `sign` — a
string or some non-string value. -/
inductive JsMessage where
  | str (s : String)
  | nonString
deriving DecidableEq, Repr

/-- Modelled from the spec (§4.1, §9): `sign(message)` succeeds only while
`Unlocked` with a non-empty string message, returning the signature
computed by the opaque `sig` parameter; a locked manager, an empty-string
message and a non-string message all fail with the one conflated
`lockedError`. -/
def KeyManager.sign (sig : KeyPair → String → List Nat) (km : KeyManager)
    (msg : JsMessage) : Except KMError (List Nat) :=
  match msg with
  | .str s => if km.isLocked || s = "" then .error .lockedError
              else .ok (sig km.keyPair s)
  | .nonString => .error .lockedError

/-! ## Helper lemmas -/

lemma not_length_lt_one_of_ne_nil {α : Type} {l : List α} (h : l ≠ []) :
    ¬ l.length < 1 := by
  simpa [Nat.lt_one_iff, List.length_eq_zero] using h

/-- Evaluating the validator on a valid network and a non-empty array of
addresses: the result records the whole input list, the filtered invalid
sublist, and the success flag / error message determined by it. -/
lemma validate_arr_eq (decode : String → List Nat) (hash : List Nat → List Nat)
    (network : String) (l : List String)
    (hp : isValidNetwork network = true) (hl : l ≠ []) :
    validateAddressesByNetwork decode hash network (.arr l) =
      (if l.filter (isInvalidAddress decode hash (getDecimalByNetwork network)) = [] then
        .ok ⟨true, "", network, .arr l,
          l.filter (isInvalidAddress decode hash (getDecimalByNetwork network))⟩
      else
        .ok ⟨false, "Invalid addresses for network: " ++ network, network, .arr l,
          l.filter (isInvalidAddress decode hash (getDecimalByNetwork network))⟩) := by
  have hlen := not_length_lt_one_of_ne_nil hl
  by_cases hf : l.filter (isInvalidAddress decode hash (getDecimalByNetwork network)) = []
  · simp [validateAddressesByNetwork, hp, hlen, jsTruthyAddrs, AddrsVal.truthy,
      AddrsVal.len, hf]
  · have hpos : 0 < (l.filter (isInvalidAddress decode hash (getDecimalByNetwork network))).length :=
      List.length_pos.mpr hf
    simp [validateAddressesByNetwork, hp, hlen, jsTruthyAddrs, AddrsVal.truthy,
      AddrsVal.len, hf, hpos]

/-- The boolean per-address check, as a proposition. -/
lemma isInvalidAddress_iff (decode : String → List Nat) (hash : List Nat → List Nat)
    (tag : Nat) (a : String) :
    isInvalidAddress decode hash tag a = true ↔
      ((decode a).length ≠ 38 ∨ (decode a).headD 0 ≠ tag ∨
        (decode a).drop 34 ≠ (hash ((decode a).take 34)).take 4) := by
  by_cases h1 : (decode a).length = 38
  · by_cases h2 : (decode a).headD 0 = tag
    · simp [isInvalidAddress, h1, h2]
    · simp [isInvalidAddress, h1, h2]
  · simp [isInvalidAddress, h1]

/-! ## Claims -/

/-- C1: for a valid network and a normalized (array) address list, an
address lands in `invalidAddresses` iff its decoding is not 38 bytes long,
or byte 0 differs from the network's numeric tag, or bytes 34-37 differ
from the first 4 bytes of the hash of bytes 0-33; and the result's
`addresses` field records every input address. -/
theorem validate_invalid_iff_checksum_fails
    (decode : String → List Nat) (hash : List Nat → List Nat)
    (network : String) (l : List String) (r : ValidationResult)
    (hp : isValidNetwork network = true)
    (hr : validateAddressesByNetwork decode hash network (.arr l) = .ok r) :
    ValidationResult.addresses r = .arr l ∧
    ∀ a ∈ l, (a ∈ ValidationResult.invalidAddresses r ↔
      ((decode a).length ≠ 38 ∨ (decode a).headD 0 ≠ getDecimalByNetwork network ∨
        (decode a).drop 34 ≠ (hash ((decode a).take 34)).take 4)) := by
  by_cases hl : l = []
  · subst hl
    have heval : validateAddressesByNetwork decode hash network (.arr []) =
        .ok ⟨false, "No addresses found", network, .arr [], []⟩ := by
      simp [validateAddressesByNetwork, hp, jsTruthyAddrs, AddrsVal.truthy, AddrsVal.len]
    rw [heval] at hr
    cases hr
    simp
  · rw [validate_arr_eq decode hash network l hp hl] at hr
    split at hr <;> cases hr <;>
      exact ⟨rfl, fun a ha => by
        rw [List.mem_filter, isInvalidAddress_iff]
        simp [ha]⟩

/-- Witness for C1 at a concrete input: the sample decoder returns 38 zero
bytes, whose byte 0 differs from the tag 48 of network `local`, so the one
address is invalid. -/
theorem validate_invalid_iff_checksum_fails_witness :
    isValidNetwork "local" = true ∧
    (ValidationResult.addresses
        ⟨false, "Invalid addresses for network: local", "local", .arr ["A"], ["A"]⟩ =
          .arr ["A"] ∧
      ∀ a ∈ ["A"], (a ∈ ValidationResult.invalidAddresses
          ⟨false, "Invalid addresses for network: local", "local", .arr ["A"], ["A"]⟩ ↔
        (((fun _ : String => List.replicate 38 0) a).length ≠ 38 ∨
          ((fun _ : String => List.replicate 38 0) a).headD 0 ≠ getDecimalByNetwork "local" ∨
          ((fun _ : String => List.replicate 38 0) a).drop 34 ≠
            ((fun _ : List Nat => ([] : List Nat)) (((fun _ : String => List.replicate 38 0) a).take 34)).take 4))) :=
  ⟨rfl, validate_invalid_iff_checksum_fails (fun _ => List.replicate 38 0)
    (fun _ => []) "local" ["A"]
    ⟨false, "Invalid addresses for network: local", "local", .arr ["A"], ["A"]⟩ rfl rfl⟩

/-- C2: for a valid network and a non-empty normalized list, `success` is
true exactly when `invalidAddresses` is empty, and when some address is
invalid the error message is `"Invalid addresses for network: "` followed
by the network name. -/
theorem validate_success_iff_no_invalid
    (decode : String → List Nat) (hash : List Nat → List Nat)
    (network : String) (l : List String) (r : ValidationResult)
    (hp : isValidNetwork network = true) (hl : l ≠ [])
    (hr : validateAddressesByNetwork decode hash network (.arr l) = .ok r) :
    (ValidationResult.success r = true ↔ ValidationResult.invalidAddresses r = []) ∧
    (ValidationResult.invalidAddresses r ≠ [] →
      ValidationResult.errorMsg r = "Invalid addresses for network: " ++ network) := by
  rw [validate_arr_eq decode hash network l hp hl] at hr
  split at hr <;> rename_i hf <;> cases hr <;> simp [hf]

/-- Witness for C2 at a concrete input. -/
theorem validate_success_iff_no_invalid_witness :
    isValidNetwork "local" = true ∧ (["A"] : List String) ≠ [] ∧
    ((ValidationResult.success
        ⟨false, "Invalid addresses for network: local", "local", .arr ["A"], ["A"]⟩ = true ↔
      ValidationResult.invalidAddresses
        ⟨false, "Invalid addresses for network: local", "local", .arr ["A"], ["A"]⟩ = []) ∧
    (ValidationResult.invalidAddresses
        ⟨false, "Invalid addresses for network: local", "local", .arr ["A"], ["A"]⟩ ≠ [] →
      ValidationResult.errorMsg
        ⟨false, "Invalid addresses for network: local", "local", .arr ["A"], ["A"]⟩ =
          "Invalid addresses for network: " ++ "local")) :=
  ⟨rfl, by simp, validate_success_iff_no_invalid (fun _ => List.replicate 38 0)
    (fun _ => []) "local" ["A"]
    ⟨false, "Invalid addresses for network: local", "local", .arr ["A"], ["A"]⟩
    rfl (by simp) rfl⟩

/-- C4: the extractor flattens a structured object into one list in
encounter order (`changeAddress`, `consolidationAdddress`, `recipients`
first components, `sender`, `addresses`), without deduplication; in
particular `{changeAddress: A, sender: [B], addresses: [C]}` yields
exactly `[A, B, C]`. -/
theorem extract_flattens_in_order
    (A B C ch co rcp snd ad : String) (amt : Nat)
    (hA : A ≠ "") (hch : ch ≠ "") (hco : co ≠ "") :
    extractAddressesFromObj (.obj ⟨some A, none, [], [B], [C]⟩) = .arr [A, B, C] ∧
    extractAddressesFromObj (.obj ⟨some ch, some co, [(rcp, amt)], [snd], [ad]⟩) =
      .arr [ch, co, rcp, snd, ad] := by
  constructor <;>
    simp [extractAddressesFromObj, extractFromTxObj, pushIfTruthy, hA, hch, hco]

/-- Witness for C4 at concrete strings. -/
theorem extract_flattens_in_order_witness :
    ("A" : String) ≠ "" ∧ ("ch" : String) ≠ "" ∧ ("co" : String) ≠ "" ∧
    (extractAddressesFromObj (.obj ⟨some "A", none, [], ["B"], ["C"]⟩) =
        .arr ["A", "B", "C"] ∧
      extractAddressesFromObj (.obj ⟨some "ch", some "co", [("r", 10)], ["s"], ["a"]⟩) =
        .arr ["ch", "co", "r", "s", "a"]) :=
  ⟨by decide, by decide, by decide,
    extract_flattens_in_order "A" "B" "C" "ch" "co" "r" "s" "a" 10
      (by decide) (by decide) (by decide)⟩

/-- A string whose length is positive is non-empty, in the form the
validator's `.length < 1` guard needs. -/
lemma not_string_length_lt_one {s : String} (h : s ≠ "") : ¬ s.length < 1 := by
  cases s with
  | mk d =>
    cases d with
    | nil => exact absurd rfl h
    | cons c cs => simp [String.length]

/-- Appending anything to a non-empty string stays non-empty. -/
lemma string_append_ne_empty_left (s t : String) (h : s ≠ "") : s ++ t ≠ "" := by
  intro he
  have hlen := congrArg String.length he
  rw [String.length_append] at hlen
  have hs0 : s.length = 0 := by
    have : ("" : String).length = 0 := rfl
    omega
  cases s with
  | mk d =>
    cases d with
    | nil => exact h rfl
    | cons c cs => simp [String.length] at hs0

/-- C5: for a network name outside the recognized list, the validator
fails immediately with the fixed non-empty message
`"Invalid network provided"`, and the result does not depend on the
decode or hash functions at all — no base58 decoding and no checksum
computation is performed. -/
theorem validate_unknown_network
    (network : String) (addresses : JsAddresses)
    (d₁ d₂ : String → List Nat) (h₁ h₂ : List Nat → List Nat)
    (hp : network ∉ validNetworks) :
    validateAddressesByNetwork d₁ h₁ network addresses =
      .ok ⟨false, "Invalid network provided", network, .arr [], []⟩ ∧
    validateAddressesByNetwork d₁ h₁ network addresses =
      validateAddressesByNetwork d₂ h₂ network addresses ∧
    ("Invalid network provided" : String) ≠ "" := by
  have hc : validNetworks.contains network = false := by
    simpa using hp
  have hv : isValidNetwork network = false := by
    unfold isValidNetwork
    rw [hc, Bool.and_false]
  have he : ∀ (d : String → List Nat) (h : List Nat → List Nat),
      validateAddressesByNetwork d h network addresses =
        .ok ⟨false, "Invalid network provided", network, .arr [], []⟩ := by
    intro d h
    simp [validateAddressesByNetwork, hv]
  exact ⟨he d₁ h₁, by rw [he d₁ h₁, he d₂ h₂], by decide⟩

/-- Witness for C5 at a concrete input. -/
theorem validate_unknown_network_witness :
    ("not_a_network" : String) ∉ validNetworks ∧
    (validateAddressesByNetwork (fun _ => []) (fun _ => []) "not_a_network" (.arr ["A"]) =
        .ok ⟨false, "Invalid network provided", "not_a_network", .arr [], []⟩ ∧
      validateAddressesByNetwork (fun _ => []) (fun _ => []) "not_a_network" (.arr ["A"]) =
        validateAddressesByNetwork (fun _ => [1]) (fun _ => [2]) "not_a_network" (.arr ["A"]) ∧
      ("Invalid network provided" : String) ≠ "") :=
  ⟨by decide, validate_unknown_network "not_a_network" (.arr ["A"])
    (fun _ => []) (fun _ => [1]) (fun _ => []) (fun _ => [2]) (by decide)⟩

/-- C9: handed a bare non-empty string for `addresses` under a valid
network, the validator does not return a result: the extractor passes the
string through, the string survives the length guard, and the per-address
`forEach` iteration throws a `TypeError`. -/
theorem validate_bare_string_throws
    (decode : String → List Nat) (hash : List Nat → List Nat)
    (network : String) (s : String)
    (hp : isValidNetwork network = true) (hs : s ≠ "") :
    validateAddressesByNetwork decode hash network (.str s) =
      .error "TypeError: result.addresses.forEach is not a function" := by
  have hlen := not_string_length_lt_one hs
  simp [validateAddressesByNetwork, hp, jsTruthyAddrs, extractAddressesFromObj,
    AddrsVal.truthy, AddrsVal.len, hs, hlen]

/-- Witness for C9 at a concrete input. -/
theorem validate_bare_string_throws_witness :
    isValidNetwork "local" = true ∧ ("abc" : String) ≠ "" ∧
    validateAddressesByNetwork (fun _ => []) (fun _ => []) "local" (.str "abc") =
      .error "TypeError: result.addresses.forEach is not a function" :=
  ⟨rfl, by decide,
    validate_bare_string_throws (fun _ => []) (fun _ => []) "local" "abc" rfl (by decide)⟩

/-- C10: every `ValidationResult` actually returned by the validator, on
any return path, satisfies `success = true ↔ errorMsg = ""`. -/
theorem validate_success_iff_errorMsg_empty
    (decode : String → List Nat) (hash : List Nat → List Nat)
    (network : String) (addresses : JsAddresses) (r : ValidationResult)
    (hr : validateAddressesByNetwork decode hash network addresses = .ok r) :
    (ValidationResult.success r = true ↔ ValidationResult.errorMsg r = "") := by
  have hmsg : "Invalid addresses for network: " ++ network ≠ "" :=
    string_append_ne_empty_left _ _ (by decide)
  simp only [validateAddressesByNetwork] at hr
  split at hr
  · simp only [Except.ok.injEq] at hr
    subst hr
    simp
  · split at hr
    · simp only [Except.ok.injEq] at hr
      subst hr
      simp
    · split at hr
      · simp only [Except.ok.injEq] at hr
        subst hr
        simp
      · split at hr
        · exact absurd hr (by simp)
        · split at hr <;> simp only [Except.ok.injEq] at hr <;> subst hr <;> simp [hmsg]

/-- Witness for C10 at a concrete input. -/
theorem validate_success_iff_errorMsg_empty_witness :
    validateAddressesByNetwork (fun _ => List.replicate 38 0) (fun _ => []) "local"
        (.arr ["A"]) =
      .ok ⟨false, "Invalid addresses for network: local", "local", .arr ["A"], ["A"]⟩ ∧
    (ValidationResult.success
        ⟨false, "Invalid addresses for network: local", "local", .arr ["A"], ["A"]⟩ = true ↔
      ValidationResult.errorMsg
        ⟨false, "Invalid addresses for network: local", "local", .arr ["A"], ["A"]⟩ = "") :=
  ⟨rfl, validate_success_iff_errorMsg_empty (fun _ => List.replicate 38 0) (fun _ => [])
    "local" (.arr ["A"])
    ⟨false, "Invalid addresses for network: local", "local", .arr ["A"], ["A"]⟩ rfl⟩

/-- C3: take an address `a` that validates against its network (38 bytes,
correct tag byte, correct checksum) and an address `a'` whose decoding is
that of `a` with one checksum byte (index `34 + i`, `i < 4`) changed to a
different value; then the validator places `a'` in `invalidAddresses` and
returns `success = false`. -/
theorem corrupt_checksum_invalidates
    (decode : String → List Nat) (hash : List Nat → List Nat)
    (network : String) (a a' : String) (i b : Nat)
    (hp : isValidNetwork network = true)
    (hlen : (decode a).length = 38)
    (htag : (decode a).headD 0 = getDecimalByNetwork network)
    (hck : (decode a).drop 34 = (hash ((decode a).take 34)).take 4)
    (hi : i < 4)
    (hb : b ≠ (decode a).getD (34 + i) 0)
    (ha' : decode a' = (decode a).set (34 + i) b) :
    ∃ r, validateAddressesByNetwork decode hash network (.arr [a']) = .ok r ∧
      a' ∈ ValidationResult.invalidAddresses r ∧
      ValidationResult.success r = false := by
  have hlendrop : ((decode a).drop 34).length = 4 := by
    rw [List.length_drop, hlen]
  have h38 : 34 + i < (decode a).length := by omega
  have htake : ((decode a).set (34 + i) b).take 34 = (decode a).take 34 := by
    rw [List.set_take]
    refine List.set_eq_of_length_le ?_
    rw [List.length_take]
    omega
  have hdrop : ((decode a).set (34 + i) b).drop 34 = ((decode a).drop 34).set i b := by
    rw [List.drop_set, if_neg (by omega), Nat.add_sub_cancel_left]
  have hinv : isInvalidAddress decode hash (getDecimalByNetwork network) a' = true := by
    rw [isInvalidAddress_iff, ha']
    right; right
    rw [hdrop, htake, ← hck]
    intro heq
    have hib : i < ((decode a).drop 34).length := by omega
    have hset := congrArg (fun l : List Nat => l[i]?) heq
    simp only [List.getElem?_set_self hib, List.getElem?_drop] at hset
    rw [List.getElem?_eq_getElem h38] at hset
    have hbd : b = (decode a)[34 + i] := by
      exact Option.some.injEq _ _ ▸ hset.symm ▸ rfl
    rw [List.getD_eq_getElem (decode a) 0 h38] at hb
    exact hb hbd
  have hfil : [a'].filter (isInvalidAddress decode hash (getDecimalByNetwork network)) =
      [a'] := by
    simp [hinv]
  rw [validate_arr_eq decode hash network [a'] hp (by simp), hfil, if_neg (by simp)]
  exact ⟨⟨false, "Invalid addresses for network: " ++ network, network, .arr [a'], [a']⟩,
    rfl, by simp, rfl⟩

/-- Witness for C3: a two-address decoder where `"x"` decodes to a valid
38-byte `local` address and `"y"` decodes to the same bytes with checksum
byte 34 changed from 1 to 9, under a constant hash returning `[1,2,3,4]`. -/
theorem corrupt_checksum_invalidates_witness :
    isValidNetwork "local" = true ∧
    ((fun s => if s = "x" then 48 :: (List.replicate 33 0 ++ [1, 2, 3, 4])
        else if s = "y" then (48 :: (List.replicate 33 0 ++ [1, 2, 3, 4])).set 34 9
        else ([] : List Nat)) "x").length = 38 ∧
    (0 : Nat) < 4 ∧
    (9 : Nat) ≠ ((fun s => if s = "x" then 48 :: (List.replicate 33 0 ++ [1, 2, 3, 4])
        else if s = "y" then (48 :: (List.replicate 33 0 ++ [1, 2, 3, 4])).set 34 9
        else ([] : List Nat)) "x").getD (34 + 0) 0 ∧
    (∃ r, validateAddressesByNetwork
        (fun s => if s = "x" then 48 :: (List.replicate 33 0 ++ [1, 2, 3, 4])
          else if s = "y" then (48 :: (List.replicate 33 0 ++ [1, 2, 3, 4])).set 34 9
          else ([] : List Nat))
        (fun _ => [1, 2, 3, 4]) "local" (.arr ["y"]) = .ok r ∧
      "y" ∈ ValidationResult.invalidAddresses r ∧
      ValidationResult.success r = false) :=
  ⟨rfl, by decide, by decide, by decide,
    corrupt_checksum_invalidates
      (fun s => if s = "x" then 48 :: (List.replicate 33 0 ++ [1, 2, 3, 4])
        else if s = "y" then (48 :: (List.replicate 33 0 ++ [1, 2, 3, 4])).set 34 9
        else ([] : List Nat))
      (fun _ => [1, 2, 3, 4]) "local" "x" "y" 0 9
      rfl (by decide) (by decide) (by decide) (by decide) (by decide) (by decide)⟩

/-- C6: every construction input that is neither a non-empty string nor an
object with a string-valued `password` field — a number, an array, a plain
object whose `password` field is missing or not a string, `undefined`, or
the empty string — fails with `invalidPassword`, and the outcome is the
same for every key-derivation function, i.e. the failure happens before
any cryptographic key derivation. -/
theorem create_invalid_shape_fails
    (arg : ConstructArg)
    (h : arg = .num ∨ arg = .arrV ∨ arg = .undef ∨ arg = .str "" ∨
      (∃ pw, arg = .obj pw ∧ ∀ s, pw ≠ some (.strF s))) :
    ∀ d₁ d₂ : String → KeyPair,
      KeyManager.create d₁ arg = .error .invalidPassword ∧
      KeyManager.create d₁ arg = KeyManager.create d₂ arg := by
  intro d₁ d₂
  have hext : extractPassword arg = none := by
    rcases h with rfl | rfl | rfl | rfl | ⟨pw, rfl, hpw⟩
    · rfl
    · rfl
    · rfl
    · rfl
    · match pw with
      | none => rfl
      | some (.strF s) => exact absurd rfl (hpw s)
      | some .numF => rfl
      | some .arrF => rfl
      | some .undefF => rfl
  constructor <;> simp [KeyManager.create, hext]

/-- Witness for C6 at the concrete input `{password: 123}`. -/
theorem create_invalid_shape_fails_witness :
    (ConstructArg.obj (some .numF) = .num ∨ ConstructArg.obj (some .numF) = .arrV ∨
      ConstructArg.obj (some .numF) = .undef ∨ ConstructArg.obj (some .numF) = .str "" ∨
      (∃ pw, ConstructArg.obj (some .numF) = .obj pw ∧ ∀ s, pw ≠ some (.strF s))) ∧
    (KeyManager.create (fun _ => ⟨[], []⟩) (.obj (some .numF)) = .error .invalidPassword ∧
      KeyManager.create (fun _ => ⟨[], []⟩) (.obj (some .numF)) =
        KeyManager.create (fun _ => ⟨[1], [2]⟩) (.obj (some .numF))) :=
  ⟨.inr (.inr (.inr (.inr ⟨some .numF, rfl, fun s h => by cases h⟩))),
    create_invalid_shape_fails (.obj (some .numF))
      (.inr (.inr (.inr (.inr ⟨some .numF, rfl, fun s h => by cases h⟩))))
      (fun _ => ⟨[], []⟩) (fun _ => ⟨[1], [2]⟩)⟩

/-- C7: on a locked `KeyManager`, `unlockKey` with any password other than
the construction password fails with `invalidPassword`; the call produces
no new state (the error carries none), so the manager stays locked and none
of its fields change. -/
theorem unlock_wrong_password_fails
    (km : KeyManager) (pw : Option String)
    (hlock : km.isLocked = true) (hpw : pw ≠ some km.password) :
    KeyManager.unlockKey km pw = .error .invalidPassword ∧
    km.isLocked = true := by
  refine ⟨?_, hlock⟩
  unfold KeyManager.unlockKey
  rw [if_neg (by simp [hlock]), if_neg hpw]

/-- Witness for C7 at a concrete locked manager and wrong password. -/
theorem unlock_wrong_password_fails_witness :
    KeyManager.isLocked ⟨"password_test", ⟨[], []⟩, true⟩ = true ∧
    (some "this_is_an_invalid_password" : Option String) ≠
      some (KeyManager.password ⟨"password_test", ⟨[], []⟩, true⟩) ∧
    (KeyManager.unlockKey ⟨"password_test", ⟨[], []⟩, true⟩
        (some "this_is_an_invalid_password") = .error .invalidPassword ∧
      KeyManager.isLocked ⟨"password_test", ⟨[], []⟩, true⟩ = true) :=
  ⟨rfl, by decide,
    unlock_wrong_password_fails ⟨"password_test", ⟨[], []⟩, true⟩
      (some "this_is_an_invalid_password") rfl (by decide)⟩

/-- C8: `sign` fails with the one `lockedError` in all three cases — any
message while locked, the empty-string message while unlocked, a
non-string message while unlocked — and the three failures are literally
the same error value, so the causes cannot be told apart by the caller. -/
theorem sign_conflated_locked_error
    (sig : KeyPair → String → List Nat) (km km₁ km₂ : KeyManager) (msg : JsMessage)
    (h1 : km.isLocked = true) (h2 : km₁.isLocked = false) (h3 : km₂.isLocked = false) :
    KeyManager.sign sig km msg = .error .lockedError ∧
    KeyManager.sign sig km₁ (.str "") = .error .lockedError ∧
    KeyManager.sign sig km₂ .nonString = .error .lockedError ∧
    KeyManager.sign sig km msg = KeyManager.sign sig km₁ (.str "") ∧
    KeyManager.sign sig km₁ (.str "") = KeyManager.sign sig km₂ .nonString := by
  have e1 : KeyManager.sign sig km msg = .error .lockedError := by
    cases msg with
    | str s => simp [KeyManager.sign, h1]
    | nonString => rfl
  have e2 : KeyManager.sign sig km₁ (.str "") = .error .lockedError := by
    simp [KeyManager.sign]
  have e3 : KeyManager.sign sig km₂ .nonString = .error .lockedError := rfl
  exact ⟨e1, e2, e3, by rw [e1, e2], by rw [e2, e3]⟩

/-- Witness for C8 at concrete managers and a concrete message. -/
theorem sign_conflated_locked_error_witness :
    KeyManager.isLocked ⟨"pw", ⟨[], []⟩, true⟩ = true ∧
    KeyManager.isLocked ⟨"pw", ⟨[], []⟩, false⟩ = false ∧
    (KeyManager.sign (fun _ _ => []) ⟨"pw", ⟨[], []⟩, true⟩ (.str "topl_signature") =
        .error .lockedError ∧
      KeyManager.sign (fun _ _ => []) ⟨"pw", ⟨[], []⟩, false⟩ (.str "") =
        .error .lockedError ∧
      KeyManager.sign (fun _ _ => []) ⟨"pw", ⟨[], []⟩, false⟩ .nonString =
        .error .lockedError ∧
      KeyManager.sign (fun _ _ => []) ⟨"pw", ⟨[], []⟩, true⟩ (.str "topl_signature") =
        KeyManager.sign (fun _ _ => []) ⟨"pw", ⟨[], []⟩, false⟩ (.str "") ∧
      KeyManager.sign (fun _ _ => []) ⟨"pw", ⟨[], []⟩, false⟩ (.str "") =
        KeyManager.sign (fun _ _ => []) ⟨"pw", ⟨[], []⟩, false⟩ .nonString) :=
  ⟨rfl, rfl,
    sign_conflated_locked_error (fun _ _ => []) ⟨"pw", ⟨[], []⟩, true⟩
      ⟨"pw", ⟨[], []⟩, false⟩ ⟨"pw", ⟨[], []⟩, false⟩ (.str "topl_signature")
      rfl rfl rfl⟩

end LokiJS
